import Mathlib

/-!
Verification of the webhook ingestion and secret-management subsystem of the
asanaSheetsRomano repository.  The definitions below are shallow embeddings of
the JavaScript source: pure functions become Lean functions, the Google Sheets
backing store becomes an explicit state record threaded through the
translation, machine arithmetic is `Nat` reduced modulo `2 ^ 32`, and
fallible calls return `Except`.
-/

/-! ### SHA-256 and HMAC-SHA256

The event handler calls Node's `crypto.createHmac("SHA256", secret)`.  The
implementation below is FIPS 180-4 SHA-256 over byte lists (`Nat` entries
below 256), with 32-bit words represented as `Nat` modulo `2 ^ 32`, followed
by RFC 2104 HMAC and lowercase hex encoding, matching `digest("hex")`. -/

def w32 : Nat := 4294967296

def add32 (a b : Nat) : Nat := (a + b) % w32

def rotr32 (n x : Nat) : Nat := ((x >>> n) ||| (x <<< (32 - n))) % w32

def not32 (x : Nat) : Nat := x ^^^ (w32 - 1)

def bigSigma0 (x : Nat) : Nat := (rotr32 2 x ^^^ rotr32 13 x) ^^^ rotr32 22 x

def bigSigma1 (x : Nat) : Nat := (rotr32 6 x ^^^ rotr32 11 x) ^^^ rotr32 25 x

def smallSigma0 (x : Nat) : Nat := (rotr32 7 x ^^^ rotr32 18 x) ^^^ (x >>> 3)

def smallSigma1 (x : Nat) : Nat := (rotr32 17 x ^^^ rotr32 19 x) ^^^ (x >>> 10)

def chFn (x y z : Nat) : Nat := (x &&& y) ^^^ (not32 x &&& z)

def majFn (x y z : Nat) : Nat := ((x &&& y) ^^^ (x &&& z)) ^^^ (y &&& z)

/-- The 64 SHA-256 round constants of FIPS 180-4 (written in decimal). -/
def sha256K : List Nat :=
  [1116352408, 1899447441, 3049323471, 3921009573, 961987163,
   1508970993, 2453635748, 2870763221, 3624381080, 310598401,
   607225278, 1426881987, 1925078388, 2162078206, 2614888103,
   3248222580, 3835390401, 4022224774, 264347078, 604807628,
   770255983, 1249150122, 1555081692, 1996064986, 2554220882,
   2821834349, 2952996808, 3210313671, 3336571891, 3584528711,
   113926993, 338241895, 666307205, 773529912, 1294757372,
   1396182291, 1695183700, 1986661051, 2177026350, 2456956037,
   2730485921, 2820302411, 3259730800, 3345764771, 3516065817,
   3600352804, 4094571909, 275423344, 430227734, 506948616,
   659060556, 883997877, 958139571, 1322822218, 1537002063,
   1747873779, 1955562222, 2024104815, 2227730452, 2361852424,
   2428436474, 2756734187, 3204031479, 3329325298]

/-- The 8 SHA-256 initial hash values of FIPS 180-4 (written in decimal). -/
def sha256H0 : List Nat :=
  [1779033703, 3144134277, 1013904242, 2773480762, 1359893119,
   2600822924, 528734635, 1541459225]

/-- Big-endian 8-byte encoding of the message bit length. -/
def beBytes8 (n : Nat) : List Nat :=
  [(n >>> 56) % 256, (n >>> 48) % 256, (n >>> 40) % 256, (n >>> 32) % 256,
   (n >>> 24) % 256, (n >>> 16) % 256, (n >>> 8) % 256, n % 256]

/-- SHA-256 padding: append `0x80`, zero bytes to 56 mod 64, then the
bit length. -/
def sha256Pad (msg : List Nat) : List Nat :=
  let r := msg.length % 64
  let zeros := if r ≤ 55 then 55 - r else 119 - r
  msg ++ [0x80] ++ List.replicate zeros 0 ++ beBytes8 (msg.length * 8)

def bytesToWords : List Nat → List Nat
  | a :: b :: c :: d :: rest => (((a * 256 + b) * 256 + c) * 256 + d) :: bytesToWords rest
  | _ => []

/-- Split a word list into 16-word blocks, driven by explicit fuel so that the
kernel can evaluate it. -/
def chunk16F : Nat → List Nat → List (List Nat)
  | 0, _ => []
  | _, [] => []
  | fuel + 1, ws => ws.take 16 :: chunk16F fuel (ws.drop 16)

def chunk16 (ws : List Nat) : List (List Nat) := chunk16F ws.length ws

/-- Message-schedule extension: `acc` holds the words produced so far in
reverse order (most recent first). -/
def scheduleExtend : Nat → List Nat → List Nat
  | 0, acc => acc
  | n + 1, acc =>
    let g := fun k => (acc.get? k).getD 0
    let w := (((smallSigma1 (g 1) + g 6) + smallSigma0 (g 14)) + g 15) % w32
    scheduleExtend n (w :: acc)

def sha256Schedule (block : List Nat) : List Nat :=
  (scheduleExtend 48 block.reverse).reverse

def sha256Round (st : List Nat) (ki wi : Nat) : List Nat :=
  match st with
  | [a, b, c, d, e, f, g, h] =>
    let t1 := ((((h + bigSigma1 e) + chFn e f g) + ki) + wi) % w32
    let t2 := (bigSigma0 a + majFn a b c) % w32
    [(t1 + t2) % w32, a, b, c, (d + t1) % w32, e, f, g]
  | other => other

def sha256Compress (h : List Nat) (block : List Nat) : List Nat :=
  let ws := sha256Schedule block
  let st := (sha256K.zip ws).foldl (fun s p => sha256Round s p.1 p.2) h
  (h.zip st).map (fun p => (p.1 + p.2) % w32)

def sha256Words (msg : List Nat) : List Nat :=
  (chunk16 (bytesToWords (sha256Pad msg))).foldl sha256Compress sha256H0

def wordBytes (w : Nat) : List Nat :=
  [(w >>> 24) % 256, (w >>> 16) % 256, (w >>> 8) % 256, w % 256]

def sha256Bytes (msg : List Nat) : List Nat :=
  ((sha256Words msg).map wordBytes).flatten

def hexChar (n : Nat) : Char :=
  if n < 10 then Char.ofNat (48 + n) else Char.ofNat (87 + n)

def bytesToHex (bs : List Nat) : String :=
  String.mk ((bs.map (fun b => [hexChar (b / 16), hexChar (b % 16)])).flatten)

/-- UTF-8 bytes of a string; all strings handled by the webhook code in the
claims are ASCII, where the code units coincide with `Char.toNat`. -/
def strBytes (s : String) : List Nat := s.data.map Char.toNat

def hmacSha256 (key msg : List Nat) : List Nat :=
  let k0 := if 64 < key.length then sha256Bytes key else key
  let kPad := k0 ++ List.replicate (64 - k0.length) 0
  let ipad := kPad.map (fun b => b ^^^ 0x36)
  let opad := kPad.map (fun b => b ^^^ 0x5c)
  sha256Bytes (opad ++ sha256Bytes (ipad ++ msg))

/-- Hex digest of HMAC-SHA256, as produced by
`crypto.createHmac("SHA256", secret).update(body).digest("hex")`. -/
def hmacSha256Hex (key msg : String) : String :=
  bytesToHex (hmacSha256 (strBytes key) (strBytes msg))

/-! ### JSON values

The serverless handler (`api/webhook` CommonJS variant, `src/unnamed/part_006`)
parses the request body with `JSON.parse` (falling back to `{}` on failure or
empty body) and re-serializes it with `JSON.stringify` before computing the
signature.  `Json` models the JavaScript JSON values produced by those
builtins for the fragment the webhook payloads use (objects, arrays, strings,
integers, booleans, null); `stringify` follows `JSON.stringify`'s compact
format and `parseJson` follows `JSON.parse` (whitespace-tolerant, full-input).
Recursion is driven by explicit fuel so the kernel can evaluate it. -/

inductive Json where
  | null : Json
  | bool (b : Bool) : Json
  | num (n : Int) : Json
  | str (s : String) : Json
  | arr (elems : List Json) : Json
  | obj (fields : List (String × Json)) : Json
deriving Inhabited

def jsonEscapeChar (c : Char) : List Char :=
  if c = '"' then ['\\', '"']
  else if c = '\\' then ['\\', '\\']
  else if c = '\n' then ['\\', 'n']
  else if c = '\t' then ['\\', 't']
  else if c = '\r' then ['\\', 'r']
  else [c]

def jsonQuote (s : String) : String :=
  "\"" ++ String.mk ((s.data.map jsonEscapeChar).flatten) ++ "\""

def stringifyF : Nat → Json → String
  | 0, _ => ""
  | fuel + 1, j =>
    match j with
    | .null => "null"
    | .bool b => if b then "true" else "false"
    | .num n => toString n
    | .str s => jsonQuote s
    | .arr elems =>
      "[" ++ String.intercalate "," (elems.map (stringifyF fuel)) ++ "]"
    | .obj fields =>
      "\x7b" ++
        String.intercalate ","
          (fields.map (fun p => jsonQuote p.1 ++ ":" ++ stringifyF fuel p.2)) ++
        "\x7d"

def stringify (j : Json) : String := stringifyF 1000 j

def isJsonWs (c : Char) : Bool :=
  c = ' ' || c = '\n' || c = '\t' || c = '\r'

def skipWs : List Char → List Char
  | [] => []
  | c :: cs => if isJsonWs c then skipWs cs else c :: cs

def unescapeChar (c : Char) : Option Char :=
  if c = '"' then some '"'
  else if c = '\\' then some '\\'
  else if c = '/' then some '/'
  else if c = 'n' then some '\n'
  else if c = 't' then some '\t'
  else if c = 'r' then some '\r'
  else none

def parseStrChars : Nat → List Char → Option (List Char × List Char)
  | 0, _ => none
  | fuel + 1, cs =>
    match cs with
    | [] => none
    | '"' :: rest => some ([], rest)
    | '\\' :: e :: rest =>
      match unescapeChar e with
      | some c =>
        match parseStrChars fuel rest with
        | some (out, rest2) => some (c :: out, rest2)
        | none => none
      | none => none
    | c :: rest =>
      match parseStrChars fuel rest with
      | some (out, rest2) => some (c :: out, rest2)
      | none => none

def takeDigits : List Char → List Char × List Char
  | [] => ([], [])
  | c :: cs =>
    if c.isDigit then
      let (ds, rest) := takeDigits cs
      (c :: ds, rest)
    else ([], c :: cs)

def digitsToNat (ds : List Char) : Nat :=
  ds.foldl (fun n c => n * 10 + (c.toNat - 48)) 0

inductive PMode where
  | val : PMode
  | elems : PMode
  | fields : PMode
deriving Repr, DecidableEq

inductive PVal where
  | v (j : Json) : PVal
  | list (js : List Json) : PVal
  | fieldList (fs : List (String × Json)) : PVal

def parseF : Nat → PMode → List Char → Option (PVal × List Char)
  | 0, _, _ => none
  | fuel + 1, .val, cs0 =>
    (match skipWs cs0 with
     | 'n' :: 'u' :: 'l' :: 'l' :: rest => some (.v .null, rest)
     | 't' :: 'r' :: 'u' :: 'e' :: rest => some (.v (.bool true), rest)
     | 'f' :: 'a' :: 'l' :: 's' :: 'e' :: rest => some (.v (.bool false), rest)
     | '"' :: rest =>
       (match parseStrChars fuel rest with
        | some (chars, rest2) => some (.v (.str (String.mk chars)), rest2)
        | none => none)
     | '[' :: rest =>
       (match skipWs rest with
        | ']' :: rest2 => some (.v (.arr []), rest2)
        | _ =>
          match parseF fuel .elems rest with
          | some (.list js, rest2) => some (.v (.arr js), rest2)
          | _ => none)
     | '\x7b' :: rest =>
       (match skipWs rest with
        | '\x7d' :: rest2 => some (.v (.obj []), rest2)
        | _ =>
          match parseF fuel .fields rest with
          | some (.fieldList fs, rest2) => some (.v (.obj fs), rest2)
          | _ => none)
     | '-' :: rest =>
       (match takeDigits rest with
        | ([], _) => none
        | (ds, rest2) => some (.v (.num (-(digitsToNat ds : Int))), rest2))
     | c :: rest =>
       if c.isDigit then
         (match takeDigits (c :: rest) with
          | (ds, rest2) => some (.v (.num (digitsToNat ds : Int)), rest2))
       else none
     | [] => none)
  | fuel + 1, .elems, cs0 =>
    (match parseF fuel .val cs0 with
     | some (.v j, rest) =>
       (match skipWs rest with
        | ',' :: rest2 =>
          (match parseF fuel .elems rest2 with
           | some (.list js, rest3) => some (.list (j :: js), rest3)
           | _ => none)
        | ']' :: rest2 => some (.list [j], rest2)
        | _ => none)
     | _ => none)
  | fuel + 1, .fields, cs0 =>
    (match skipWs cs0 with
     | '"' :: rest =>
       (match parseStrChars fuel rest with
        | some (kcs, rest2) =>
          (match skipWs rest2 with
           | ':' :: rest3 =>
             (match parseF fuel .val rest3 with
              | some (.v j, rest4) =>
                (match skipWs rest4 with
                 | ',' :: rest5 =>
                   (match parseF fuel .fields rest5 with
                    | some (.fieldList fs, rest6) =>
                      some (.fieldList ((String.mk kcs, j) :: fs), rest6)
                    | _ => none)
                 | '\x7d' :: rest5 => some (.fieldList [(String.mk kcs, j)], rest5)
                 | _ => none)
              | _ => none)
           | _ => none)
        | none => none)
     | _ => none)

def parseJson (s : String) : Option Json :=
  match parseF (s.length * 4 + 16) PMode.val s.data with
  | some (PVal.v j, rest) => if skipWs rest = [] then some j else none
  | _ => none

/-- Translation of `parseRequestBody` from `src/unnamed/part_006` (lines
13-32): an empty body resolves to `{}`, and a `JSON.parse` failure also
resolves to `{}` to avoid crashing. -/
def parseRequestBody (raw : String) : Json :=
  if raw = "" then Json.obj []
  else
    match parseJson raw with
    | some j => j
    | none => Json.obj []

/-! ### Event-delivery signature verification (`src/unnamed/part_006`,
lines 69-101) -/

structure EventResponse where
  status : Nat
  body : String
deriving Repr, DecidableEq

/-- Translation of the verification loop: for each stored secret, compute
HMAC-SHA256 over `bodyString` and compare to the signature header;
`isValid` becomes true on the first match. -/
def verifyAgainstSecrets (secrets : List String) (bodyString signature : String) : Bool :=
  secrets.any (fun secret => hmacSha256Hex secret bodyString == signature)

/-- Translation of the event-delivery path of the `src/unnamed/part_006`
handler after the signature header has been extracted: the body string fed to
the HMAC is `JSON.stringify(await parseRequestBody(req))`, i.e. the
re-serialization of the parsed body, not the raw request bytes. -/
def part006EventResponse (secrets : List String) (raw signature : String) : EventResponse :=
  let bodyString := stringify (parseRequestBody raw)
  if verifyAgainstSecrets secrets bodyString signature then
    ⟨200, "OK"⟩
  else
    ⟨401, "Invalid webhook signature"⟩


/-! ### Handshake handlers

Two handshake handlers exist in the repository.  `apiWebhookHandshake` models
the ESM handler in `src/api/webhook.js` (lines 105-143), and
`part006Handshake` models the handshake branch of the CommonJS handler in
`src/unnamed/part_006` (lines 34-66).  JavaScript `||` chains treat the empty
string as falsy, which `jsOrStr` captures; the outcome of the awaited
persistence call is passed in as an `Except` value, and `persistCall` records
the arguments of the attempted `SpreadsheetSecretStore` write. -/

structure JsError where
  code : Nat
deriving Repr, DecidableEq

deriving instance DecidableEq for Except

/-- JavaScript `a || b` restricted to optional strings: `a` wins unless it is
absent or the empty string. -/
def jsOrStr (a b : Option String) : Option String :=
  match a with
  | some s => if s = "" then b else some s
  | none => b

/-- Webhook-identifier resolution in `src/api/webhook.js`:
`req.headers['x-hook-id'] || req.headers['x-hook-gid'] ||
searchParams.get('webhookId') || searchParams.get('clientWebhookId')`
(line 107), falling back to `` `asana-${Date.now()}` `` (line 119). -/
def resolveWebhookId (xHookId xHookGid qWebhookId qClientWebhookId : Option String)
    (now : Nat) : String :=
  match jsOrStr (jsOrStr (jsOrStr xHookId xHookGid) qWebhookId) qClientWebhookId with
  | some s => if s = "" then "asana-" ++ toString now else s
  | none => "asana-" ++ toString now

structure HandshakeResult where
  status : Nat
  xHookSecret : Option String
  body : String
  /-- Arguments `(sheetId, webhookId, secret)` of the persistence call the
  handler issued, `none` when persistence was skipped entirely. -/
  persistCall : Option (String × String × String)
deriving Repr, DecidableEq

/-- Handshake path of the `src/api/webhook.js` handler (lines 109-142): the
`X-Hook-Secret` header is echoed before persistence is attempted, a missing
`sheetId` skips persistence with a distinct body, and a persistence failure is
caught and logged while the handler still responds 200. -/
def apiWebhookHandshake (hookSecret : String)
    (xHookId xHookGid qWebhookId qClientWebhookId : Option String)
    (sheetId : Option String) (now : Nat)
    (persistOutcome : Except JsError Unit) : HandshakeResult :=
  let webhookId := resolveWebhookId xHookId xHookGid qWebhookId qClientWebhookId now
  match jsOrStr sheetId none with
  | none =>
    { status := 200, xHookSecret := some hookSecret,
      body := "Handshake OK (no sheetId)", persistCall := none }
  | some sid =>
    match persistOutcome with
    | Except.ok _ =>
      { status := 200, xHookSecret := some hookSecret,
        body := "Handshake OK (persist attempt completed)",
        persistCall := some (sid, webhookId, hookSecret) }
    | Except.error _ =>
      { status := 200, xHookSecret := some hookSecret,
        body := "Handshake OK (persist attempt completed)",
        persistCall := some (sid, webhookId, hookSecret) }

/-- Handshake branch of the `src/unnamed/part_006` handler (lines 51-66): the
secret is stored first; only on success is the header echoed with a 200, and a
failure of `storeWebhookSecret` produces a 500 with no echo header. -/
def part006Handshake (sheetId : String) (hookSecret : String)
    (webhookId : Option String)
    (storeOutcome : Except JsError Unit) : HandshakeResult :=
  match storeOutcome with
  | Except.ok _ =>
    { status := 200, xHookSecret := some hookSecret,
      body := "Webhook handshake completed",
      persistCall := some (sheetId, webhookId.getD "", hookSecret) }
  | Except.error _ =>
    { status := 500, xHookSecret := none,
      body := "Failed to store webhook secret",
      persistCall := some (sheetId, webhookId.getD "", hookSecret) }

/-! ### The spreadsheet secret store
(`src/src/config/asana.js`, second document: `webhookHandler.js`)

The Google Sheets API is modelled as a state record: `rows` are the data rows
of the hidden `webhook_secrets` sheet (below its header), `faults` is a
fault-injection schedule consumed one entry per API call (an exhausted
schedule means every further call succeeds), and `trace` records the calls
made.  Each translated function threads this state explicitly; errors are
`Except.error` values carrying the HTTP-style `code` the source inspects. -/

inductive Fault where
  | ok : Fault
  | rate : Fault
  | fail : Fault
deriving Repr, DecidableEq

inductive ApiCall where
  | getMeta : ApiCall
  | addSheet : ApiCall
  | writeHeader : ApiCall
  | readRows : ApiCall
  | updateRow (rowNum : Nat) : ApiCall
  | appendRow : ApiCall
  | wait (ms : Nat) : ApiCall
deriving Repr, DecidableEq

structure SheetsState where
  hasSecretsSheet : Bool
  rows : List (List String)
  faults : List Fault
  trace : List ApiCall
deriving Repr, DecidableEq

def takeFault (st : SheetsState) : Fault × SheetsState :=
  match st.faults with
  | [] => (Fault.ok, st)
  | f :: rest => (f, { st with faults := rest })

/-- Issue one Sheets API call: consume the next fault-schedule entry, record
the call in the trace, and produce the call's outcome. -/
def callOutcome (c : ApiCall) (st : SheetsState) : Except JsError Unit × SheetsState :=
  let (f, st1) := takeFault st
  let st2 := { st1 with trace := st1.trace ++ [c] }
  match f with
  | Fault.ok => (Except.ok (), st2)
  | Fault.rate => (Except.error ⟨429⟩, st2)
  | Fault.fail => (Except.error ⟨500⟩, st2)

def recordWait (ms : Nat) (st : SheetsState) : SheetsState :=
  { st with trace := st.trace ++ [ApiCall.wait ms] }

/-- Translation of `ensureWebhookSecretsSheet` (lines 230-278): read the
spreadsheet metadata; if the hidden `webhook_secrets` sheet is absent, create
it and write its header row. -/
def ensureWebhookSecretsSheet (st : SheetsState) : Except JsError Unit × SheetsState :=
  match callOutcome ApiCall.getMeta st with
  | (Except.error e, st1) => (Except.error e, st1)
  | (Except.ok _, st1) =>
    if st1.hasSecretsSheet then (Except.ok (), st1)
    else
      match callOutcome ApiCall.addSheet st1 with
      | (Except.error e, st2) => (Except.error e, st2)
      | (Except.ok _, st2) =>
        let st2' := { st2 with hasSecretsSheet := true }
        match callOutcome ApiCall.writeHeader st2' with
        | (Except.error e, st3) => (Except.error e, st3)
        | (Except.ok _, st3) => (Except.ok (), st3)

/-- The `try { ensure } catch` block of `storeWebhookSecret` and
`getWebhookSecrets` (lines 291-307 and 381-397): a 429 waits 5 seconds and
retries the ensure step once; any other error is rethrown. -/
def ensureWithRetry (st : SheetsState) : Except JsError Unit × SheetsState :=
  match ensureWebhookSecretsSheet st with
  | (Except.ok _, st1) => (Except.ok (), st1)
  | (Except.error e, st1) =>
    if e.code = 429 then ensureWebhookSecretsSheet (recordWait 5000 st1)
    else (Except.error e, st1)

def secretsHeader : List String := ["webhook_id", "secret"]

/-- One `values.get` over `webhook_secrets!A:B` (header row included). -/
def readAllRows (st : SheetsState) : Except JsError (List (List String)) × SheetsState :=
  match callOutcome ApiCall.readRows st with
  | (Except.error e, st1) => (Except.error e, st1)
  | (Except.ok _, st1) => (Except.ok (secretsHeader :: st1.rows), st1)

/-- The read-with-retry block of `storeWebhookSecret` (lines 309-333). -/
def readAllRowsWithRetry (st : SheetsState) :
    Except JsError (List (List String)) × SheetsState :=
  match readAllRows st with
  | (Except.ok rows, st1) => (Except.ok rows, st1)
  | (Except.error e, st1) =>
    if e.code = 429 then readAllRows (recordWait 5000 st1)
    else (Except.error e, st1)

/-- One `values.get` over `webhook_secrets!A2:B` (data rows only). -/
def readDataRows (st : SheetsState) : Except JsError (List (List String)) × SheetsState :=
  match callOutcome ApiCall.readRows st with
  | (Except.error e, st1) => (Except.error e, st1)
  | (Except.ok _, st1) => (Except.ok st1.rows, st1)

/-- The read-with-retry block of `getWebhookSecrets` (lines 399-420). -/
def readDataRowsWithRetry (st : SheetsState) :
    Except JsError (List (List String)) × SheetsState :=
  match readDataRows st with
  | (Except.ok rows, st1) => (Except.ok rows, st1)
  | (Except.error e, st1) =>
    if e.code = 429 then readDataRows (recordWait 5000 st1)
    else (Except.error e, st1)

/-- JavaScript `Array.prototype.findIndex` returning an optional index. -/
def findIndex (p : List String → Bool) : List (List String) → Option Nat
  | [] => none
  | r :: rs =>
    if p r then some 0
    else (findIndex p rs).map (· + 1)

/-- Row-matching predicate of the upsert scan: `row[0] === webhookId`. -/
def rowMatches (webhookId : String) (r : List String) : Bool :=
  r.head? == some webhookId

/-- The pure content of the upsert decision (lines 335-365 of
`storeWebhookSecret`), acting on the data rows: overwrite the matching row in
place, or append a new one. -/
def upsertRows (rows : List (List String)) (webhookId secret : String) :
    List (List String) :=
  match findIndex (rowMatches webhookId) rows with
  | some i => rows.set i [webhookId, secret]
  | none => rows ++ [[webhookId, secret]]

/-- Translation of `storeWebhookSecret` (lines 281-372): ensure the sheet
(retrying once on 429), read `webhook_secrets!A:B` (retrying once on 429),
skip the header, and either update the matching row at sheet row
`existingIndex + 2` or append a new row.  Neither write has a retry; all
errors propagate to the caller. -/
def storeWebhookSecret (webhookId secret : String) (st : SheetsState) :
    Except JsError Unit × SheetsState :=
  match ensureWithRetry st with
  | (Except.error e, st1) => (Except.error e, st1)
  | (Except.ok _, st1) =>
    match readAllRowsWithRetry st1 with
    | (Except.error e, st2) => (Except.error e, st2)
    | (Except.ok rows, st2) =>
      let existingSecrets := rows.drop 1
      match findIndex (rowMatches webhookId) existingSecrets with
      | some i =>
        match callOutcome (ApiCall.updateRow (i + 2)) st2 with
        | (Except.error e, st3) => (Except.error e, st3)
        | (Except.ok _, st3) =>
          (Except.ok (), { st3 with rows := st3.rows.set i [webhookId, secret] })
      | none =>
        match callOutcome ApiCall.appendRow st2 with
        | (Except.error e, st3) => (Except.error e, st3)
        | (Except.ok _, st3) =>
          (Except.ok (), { st3 with rows := st3.rows ++ [[webhookId, secret]] })

/-- The secret-extraction loop of `getWebhookSecrets` (lines 422-430):
`secrets.set(secret, true)` for every row whose second cell is truthy.  A
`Map` keeps first-insertion order and deduplicates, so the extracted secrets
are the distinct non-empty second cells in order of first appearance. -/
def extractSecrets (rows : List (List String)) : List String :=
  rows.foldl
    (fun acc r =>
      match r.get? 1 with
      | some s => if s = "" then acc else if acc.contains s then acc else acc ++ [s]
      | none => acc)
    []

/-- The body of `getWebhookSecrets` before its catch-all (lines 375-433). -/
def getWebhookSecretsInner (st : SheetsState) :
    Except JsError (List String) × SheetsState :=
  match ensureWithRetry st with
  | (Except.error e, st1) => (Except.error e, st1)
  | (Except.ok _, st1) =>
    match readDataRowsWithRetry st1 with
    | (Except.error e, st2) => (Except.error e, st2)
    | (Except.ok rows, st2) => (Except.ok (extractSecrets rows), st2)

/-- Translation of `getWebhookSecrets` (lines 375-438): any error reaching the
outer catch is swallowed and an empty secret collection is returned, so the
function never raises. -/
def getWebhookSecrets (st : SheetsState) : List String × SheetsState :=
  match getWebhookSecretsInner st with
  | (Except.ok secrets, st1) => (secrets, st1)
  | (Except.error _, st1) => ([], st1)

/-! ### Event reconciliation (`src/src/config/asana.js` second document:
`handleWebhookEvent`, `findTaskRow`, row writes, lines 108-227 and 441-571)

The main data sheet (`Sheet1`) is the list `rows` including its header row at
position 0; sheet row numbers are 1-based.  Spreadsheet writes performed by
the reconciler are recorded as `SheetWrite` values. -/

inductive SheetWrite where
  | update (rowNum : Nat) (vals : List String) : SheetWrite
  | append (vals : List String) : SheetWrite
  | deleteRow (rowNum : Nat) : SheetWrite
deriving Repr, DecidableEq

/-- Scan loop of `findTaskRow` (lines 126-138): `i` is the 0-based index into
the full row array; a row participates only when its Task ID cell (column
index 17) is present and truthy (non-empty), and a match returns the 1-based
sheet row `i + 1`. -/
def findTaskRowAux (taskId : String) : List (List String) → Nat → Option Nat
  | [], _ => none
  | r :: rs, i =>
    match r.get? 17 with
    | some cell =>
      if cell = "" then findTaskRowAux taskId rs (i + 1)
      else if cell = taskId then some (i + 1)
      else findTaskRowAux taskId rs (i + 1)
    | none => findTaskRowAux taskId rs (i + 1)

/-- Translation of `findTaskRow` (lines 109-145): the loop starts at `i = 1`,
skipping the header row. -/
def findTaskRow (rows : List (List String)) (taskId : String) : Option Nat :=
  findTaskRowAux taskId (rows.drop 1) 1

/-- Translation of `deleteSpreadsheetRow` (lines 191-227): a `batchUpdate`
with a `deleteDimension` request over `[rowIndex - 1, rowIndex)` physically
removes the 0-based row `rowIndex - 1` from the sheet. -/
def deleteSpreadsheetRow (rows : List (List String)) (rowIndex : Nat) :
    List (List String) :=
  rows.eraseIdx (rowIndex - 1)

/-- The `removed`/`deleted` branch of `handleWebhookEvent` (lines 553-565):
locate the row by task id; delete it physically when found, otherwise do
nothing. -/
def handleRemovedEvent (rows : List (List String)) (taskGid : String) :
    List (List String) × List SheetWrite :=
  match findTaskRow rows taskGid with
  | some rowIndex =>
    (deleteSpreadsheetRow rows rowIndex, [SheetWrite.deleteRow rowIndex])
  | none => (rows, [])

/-- Follows the spec's words for comparison with `handleRemovedEvent`
("delete it logically", where the glossary defines logical delete as
"blanking a record's fields in place rather than physically removing its
storage slot"): the located row is replaced in place by blank cells. -/
def logicalDeleteSpec (rows : List (List String)) (rowIndex : Nat) :
    List (List String) :=
  rows.set (rowIndex - 1) (List.replicate ((rows.get? (rowIndex - 1)).getD []).length "")

structure CustomField where
  name : String
  /-- The `.name` of the `enum_value` object when one is present. -/
  enum_value : Option String
  number_value : Option Int
  text_value : Option String
  display_value : Option String
deriving Repr, DecidableEq

structure ProjectRef where
  name : String
  gid : String
  /-- The `.gid` of the project's `workspace` when present. -/
  workspace : Option String
deriving Repr, DecidableEq

structure TaskMembership where
  project : Option ProjectRef
deriving Repr, DecidableEq

structure AsanaTask where
  gid : String
  name : String
  /-- The `.name` of the `assignee` when one is present. -/
  assignee : Option String
  completed : Bool
  completed_at : Option String
  custom_fields : List CustomField
  memberships : List TaskMembership
deriving Repr, DecidableEq

/-- A JavaScript value stored in the `customFieldValues` object: a string, a
number, or `undefined`. -/
inductive CellVal where
  | s (v : String) : CellVal
  | n (v : Int) : CellVal
  | undef : CellVal
deriving Repr, DecidableEq

/-- The custom-field allow-list of `processTaskData` (lines 62-80), with the
lowercase `balance` entry added for workspace `1205846480740952`. -/
def allowedFieldNames (workspaceId : Option String) : List String :=
  let base := ["Worker", "Status", "Paid with...", "Deposit", "Bonus", "Max bet",
    "WG", "Max win", "Balance", "Groups", "Received", "RM/BM"]
  if workspaceId = some "1205846480740952" then base ++ ["balance"] else base

def displayFallback (f : CustomField) : CellVal :=
  match f.display_value with
  | some d => CellVal.s d
  | none => CellVal.undef

/-- The value-extraction chain of `processTaskData` (lines 82-95):
`enum_value.name`, else a non-null `number_value`, else a truthy
`text_value`, else `display_value`. -/
def customFieldValue (f : CustomField) : CellVal :=
  match f.enum_value with
  | some e => CellVal.s e
  | none =>
    match f.number_value with
    | some n => CellVal.n n
    | none =>
      match f.text_value with
      | some t => if t = "" then displayFallback f else CellVal.s t
      | none => displayFallback f

/-- JavaScript object property assignment: overwriting an existing key keeps
its position, a new key is appended. -/
def setObjField (m : List (String × CellVal)) (k : String) (v : CellVal) :
    List (String × CellVal) :=
  if m.any (fun p => p.1 == k) then m.map (fun p => if p.1 == k then (k, v) else p)
  else m ++ [(k, v)]

def processCustomFields (fields : List CustomField) (workspaceId : Option String) :
    List (String × CellVal) :=
  fields.foldl
    (fun acc f =>
      if (allowedFieldNames workspaceId).contains f.name then
        setObjField acc f.name (customFieldValue f)
      else acc)
    []

structure ProcessedTask where
  task_name : String
  assignee : String
  completed_at : String
  completed : Bool
  customFieldValues : List (String × CellVal)
deriving Repr, DecidableEq

/-- Translation of `processTaskData` (lines 57-106 of the webhook handler
document). -/
def processTaskData (task : AsanaTask) (workspaceId : Option String) : ProcessedTask :=
  { task_name := task.name
    assignee := task.assignee.getD ""
    completed_at := task.completed_at.getD ""
    completed := task.completed
    customFieldValues := processCustomFields task.custom_fields workspaceId }

def lookupField (m : List (String × CellVal)) (k : String) : CellVal :=
  match m.find? (fun p => p.1 == k) with
  | some p => p.2
  | none => CellVal.undef

/-- JavaScript `v || ""` applied to a custom-field cell. -/
def orEmptyCell (v : CellVal) : String :=
  match v with
  | CellVal.s t => t
  | CellVal.n k => if k = 0 then "" else toString k
  | CellVal.undef => ""

def taskWorkspaceId (task : AsanaTask) : Option String :=
  (task.memberships.head?.bind (·.project)).bind (·.workspace)

/-- The `rowValues` array of the `changed`/`added` branch (lines 494-519),
including the extra trailing `balance` column for the special workspace. -/
def rowValuesOf (task : AsanaTask) : List String :=
  let projectName := ((task.memberships.head?.bind (·.project)).map (·.name)).getD ""
  let projectId := ((task.memberships.head?.bind (·.project)).map (·.gid)).getD ""
  let workspaceId := taskWorkspaceId task
  let p := processTaskData task workspaceId
  let base := [projectName, p.task_name, p.assignee, p.completed_at,
    orEmptyCell (lookupField p.customFieldValues "Worker"),
    orEmptyCell (lookupField p.customFieldValues "Status"),
    orEmptyCell (lookupField p.customFieldValues "Paid with..."),
    orEmptyCell (lookupField p.customFieldValues "Deposit"),
    orEmptyCell (lookupField p.customFieldValues "Bonus"),
    orEmptyCell (lookupField p.customFieldValues "Max bet"),
    orEmptyCell (lookupField p.customFieldValues "WG"),
    orEmptyCell (lookupField p.customFieldValues "Max win"),
    orEmptyCell (lookupField p.customFieldValues "Balance"),
    orEmptyCell (lookupField p.customFieldValues "Groups"),
    orEmptyCell (lookupField p.customFieldValues "Received"),
    orEmptyCell (lookupField p.customFieldValues "RM/BM"),
    projectId, task.gid, if task.completed then "Yes" else "No"]
  if workspaceId = some "1205846480740952" then
    base ++ [orEmptyCell (lookupField p.customFieldValues "balance")]
  else base

/-- Translation of `updateSpreadsheetRow` (lines 148-166): overwrite sheet row
`rowIndex` (1-based) in place. -/
def updateSpreadsheetRow (rows : List (List String)) (rowIndex : Nat)
    (vals : List String) : List (List String) :=
  rows.set (rowIndex - 1) vals

/-- The `changed`/`added` branch of `handleWebhookEvent` (lines 455-551) for a
fetched task: update the existing row when one is found; otherwise append a
new row only when the task is completed or assigned to
Manager/Withdrawals/Withdraws; otherwise skip without writing. -/
def handleChangedAdded (task : AsanaTask) (rows : List (List String)) :
    List (List String) × List SheetWrite :=
  let rowValues := rowValuesOf task
  let isAssignedToManager := task.assignee == some "Manager"
  let isAssignedToWithdrawals := task.assignee == some "Withdrawals"
  let isAssignedToWithdraws := task.assignee == some "Withdraws"
  match findTaskRow rows task.gid with
  | some existingRowIndex =>
    (updateSpreadsheetRow rows existingRowIndex rowValues,
     [SheetWrite.update existingRowIndex rowValues])
  | none =>
    if task.completed || isAssignedToManager || isAssignedToWithdrawals
        || isAssignedToWithdraws then
      (rows ++ [rowValues], [SheetWrite.append rowValues])
    else (rows, [])

/-! ### Pagination
(`src/src/controllers/projectController.js`, `getAllPages`, lines 78-124)

The successive results of `fetchWithRetry` are modelled as a list of
`FetchOutcome`s consumed in order; an `err` entry is a page fetch whose
retries were exhausted and threw. -/

structure Page where
  data : List String
  next : Option String
deriving Repr, DecidableEq

inductive FetchOutcome where
  | ok (p : Page) : FetchOutcome
  | err : FetchOutcome
deriving Repr, DecidableEq

/-- The `while (hasMore)` loop of `getAllPages`: a successful page appends its
data and resets the consecutive-error counter to 0, continuing while a next
offset exists; an error increments the counter and breaks out (returning the
partial results) once it reaches `MAX_CONSECUTIVE_ERRORS = 3`. -/
def getAllPagesAux : List FetchOutcome → List String → Nat → List String
  | [], results, _ => results
  | FetchOutcome.ok p :: rest, results, _ =>
    let results1 := results ++ p.data
    match p.next with
    | some _ => getAllPagesAux rest results1 0
    | none => results1
  | FetchOutcome.err :: rest, results, consecutiveErrors =>
    if consecutiveErrors + 1 ≥ 3 then results
    else getAllPagesAux rest results (consecutiveErrors + 1)

def getAllPages (outcomes : List FetchOutcome) : List String :=
  getAllPagesAux outcomes [] 0

/-! ### Concrete demonstration inputs used by witnesses and counterexamples -/

def taskRowWithId (tid : String) : List String :=
  List.replicate 17 "" ++ [tid, "Yes"]

def demoHeaderRow : List String := List.replicate 19 "Header"

def demoSheet : List (List String) :=
  [demoHeaderRow, taskRowWithId "t1", taskRowWithId "t2"]

def demoTask : AsanaTask :=
  { gid := "t9", name := "Some task", assignee := some "Alice", completed := false,
    completed_at := none, custom_fields := [], memberships := [] }

/-! ## Theorems -/

set_option maxRecDepth 10000

example : bytesToHex (sha256Bytes (strBytes "abc")) =
    "ba7816bf8f01cfea414140de5dae2223b00361a396177a9cb410ff61f20015ad" := by decide

example : hmacSha256Hex "key" "The quick brown fox jumps over the lazy dog" =
    "f7bc83f430538424b13298e6aa6fb143ef4d59a14946175997479dbc2d1a3cd8" := by decide

/-- C9: after 3 consecutive page-fetch errors the pagination helper stops and
returns the partial results accumulated so far (ignoring any further pages and
never raising), and a successful fetch appends its data and resets the
consecutive-error count to zero. -/
theorem c9_pagination_error_tolerance :
    (∀ (outs : List FetchOutcome) (results : List String),
      getAllPagesAux (FetchOutcome.err :: FetchOutcome.err :: FetchOutcome.err :: outs)
        results 0 = results)
    ∧ (∀ (outs : List FetchOutcome) (results d : List String) (c : Nat) (o : String),
      getAllPagesAux (FetchOutcome.ok ⟨d, some o⟩ :: outs) results c
        = getAllPagesAux outs (results ++ d) 0)
    ∧ (∀ (outs : List FetchOutcome) (d : List String) (o : String),
      getAllPages (FetchOutcome.err :: FetchOutcome.err :: FetchOutcome.ok ⟨d, some o⟩ ::
        FetchOutcome.err :: FetchOutcome.err :: FetchOutcome.err :: outs) = d)
    ∧ (∀ outs : List FetchOutcome,
      getAllPages (FetchOutcome.err :: FetchOutcome.err :: FetchOutcome.err :: outs) = []) := by
  refine ⟨?_, ?_, ?_, ?_⟩
  · intro outs results
    simp [getAllPagesAux]
  · intro outs results d c o
    simp [getAllPagesAux]
  · intro outs d o
    simp [getAllPages, getAllPagesAux]
  · intro outs
    simp [getAllPages, getAllPagesAux]

/-- C1 counterexample: a handshake request to the `src/unnamed/part_006`
handler whose secret persistence fails is answered with status 500 and no
`X-Hook-Secret` echo header, refuting the claim that every handshake request
receives a 200 with the echoed secret regardless of persistence outcome. -/
theorem c1_counterexample :
    (part006Handshake "SHEET1" "abc123" (some "wh1") (Except.error ⟨500⟩)).status = 500
    ∧ (part006Handshake "SHEET1" "abc123" (some "wh1") (Except.error ⟨500⟩)).xHookSecret
        ≠ some "abc123" := by
  decide

/-- C1 (amended): the `src/api/webhook.js` handshake handler always responds
200 with the echoed `X-Hook-Secret` regardless of the persistence outcome (and
of whether a sheet id is available), while the `src/unnamed/part_006` handler
echoes with a 200 only when persistence succeeds and responds 500 without the
echo header when it fails. -/
theorem c1_handshake_echo_amended :
    (∀ (s : String) (hId hGid qW qC sheetId : Option String) (now : Nat)
        (outcome : Except JsError Unit),
      (apiWebhookHandshake s hId hGid qW qC sheetId now outcome).status = 200
      ∧ (apiWebhookHandshake s hId hGid qW qC sheetId now outcome).xHookSecret = some s)
    ∧ (∀ (sid s : String) (wid : Option String),
      (part006Handshake sid s wid (Except.ok ())).status = 200
      ∧ (part006Handshake sid s wid (Except.ok ())).xHookSecret = some s)
    ∧ (∀ (sid s : String) (wid : Option String) (e : JsError),
      (part006Handshake sid s wid (Except.error e)).status = 500
      ∧ (part006Handshake sid s wid (Except.error e)).xHookSecret = none) := by
  refine ⟨?_, ?_, ?_⟩
  · intro s hId hGid qW qC sheetId now outcome
    cases h : jsOrStr sheetId none <;> cases outcome <;>
      simp [apiWebhookHandshake, h]
  · intro sid s wid
    simp [part006Handshake]
  · intro sid s wid e
    simp [part006Handshake]

/-- C7 counterexample: with no explicit header or query identifier, the
`src/api/webhook.js` handler synthesizes `"asana-" + Date.now()`, not
`"generated-" + Date.now()` as the claim states. -/
theorem c7_counterexample :
    resolveWebhookId none none none none 12345 = "asana-12345"
    ∧ resolveWebhookId none none none none 12345 ≠ "generated-" ++ toString 12345 := by
  decide

/-- C7 (amended): the handshake handler resolves the webhook identifier as
explicit header id (`x-hook-id`, then `x-hook-gid`) first, then explicit query
id (`webhookId`, then `clientWebhookId`), and otherwise the synthesized
fallback `"asana-" + currentTimestamp`; when a sheet id is available it issues
the persistence call for the proposed secret under the identifier so
resolved. -/
theorem c7_identifier_resolution_amended :
    (∀ (s : String) (hGid qW qC : Option String) (now : Nat),
      s ≠ "" → resolveWebhookId (some s) hGid qW qC now = s)
    ∧ (∀ (s : String) (qW qC : Option String) (now : Nat),
      s ≠ "" → resolveWebhookId none (some s) qW qC now = s)
    ∧ (∀ (s : String) (qC : Option String) (now : Nat),
      s ≠ "" → resolveWebhookId none none (some s) qC now = s)
    ∧ (∀ (s : String) (now : Nat),
      s ≠ "" → resolveWebhookId none none none (some s) now = s)
    ∧ (∀ now : Nat, resolveWebhookId none none none none now = "asana-" ++ toString now)
    ∧ (∀ (s : String) (hId hGid qW qC : Option String) (sid : String) (now : Nat)
        (outcome : Except JsError Unit),
      sid ≠ "" →
        (apiWebhookHandshake s hId hGid qW qC (some sid) now outcome).persistCall
          = some (sid, resolveWebhookId hId hGid qW qC now, s)) := by
  refine ⟨?_, ?_, ?_, ?_, ?_, ?_⟩
  · intro s hGid qW qC now hs
    simp [resolveWebhookId, jsOrStr, hs]
  · intro s qW qC now hs
    simp [resolveWebhookId, jsOrStr, hs]
  · intro s qC now hs
    simp [resolveWebhookId, jsOrStr, hs]
  · intro s now hs
    simp [resolveWebhookId, jsOrStr, hs]
  · intro now
    simp [resolveWebhookId, jsOrStr]
  · intro s hId hGid qW qC sid now outcome hsid
    cases outcome <;> simp [apiWebhookHandshake, jsOrStr, hsid]

/-- C7 witness: the amended resolution order and persistence target evaluated
at concrete inputs. -/
theorem c7_witness :
    resolveWebhookId (some "h1") (some "g1") (some "q1") (some "c1") 7 = "h1"
    ∧ (apiWebhookHandshake "s1" none none none none (some "SHEET1") 7
        (Except.ok ())).persistCall = some ("SHEET1", "asana-7", "s1") := by
  constructor
  · exact c7_identifier_resolution_amended.1 "h1" (some "g1") (some "q1") (some "c1") 7
      (by decide)
  · have h := c7_identifier_resolution_amended.2.2.2.2.2 "s1" none none none none "SHEET1" 7
      (Except.ok ()) (by decide)
    simpa [resolveWebhookId, jsOrStr] using h

/-- C5: a `changed`/`added` event for a fetched task that is not completed,
whose assignee is none of Manager/Withdrawals/Withdraws, and for which no
spreadsheet row with its task id exists, performs zero spreadsheet writes and
leaves the sheet unchanged. -/
theorem c5_skip_rule (task : AsanaTask) (rows : List (List String))
    (h1 : task.completed = false)
    (h2 : task.assignee ≠ some "Manager")
    (h3 : task.assignee ≠ some "Withdrawals")
    (h4 : task.assignee ≠ some "Withdraws")
    (h5 : findTaskRow rows task.gid = none) :
    handleChangedAdded task rows = (rows, []) := by
  have b2 : (task.assignee == some "Manager") = false := beq_eq_false_iff_ne.mpr h2
  have b3 : (task.assignee == some "Withdrawals") = false := beq_eq_false_iff_ne.mpr h3
  have b4 : (task.assignee == some "Withdraws") = false := beq_eq_false_iff_ne.mpr h4
  simp [handleChangedAdded, h5, h1, b2, b3, b4]

/-- C5 witness: the skip rule evaluated at a concrete incomplete, unlisted,
row-less task. -/
theorem c5_witness : handleChangedAdded demoTask demoSheet = (demoSheet, []) :=
  c5_skip_rule demoTask demoSheet (by decide) (by decide) (by decide) (by decide)
    (by decide)

lemma findTaskRowAux_bound (tid : String) :
    ∀ (l : List (List String)) (i r : Nat),
      findTaskRowAux tid l i = some r → i < r ∧ r ≤ i + l.length := by
  intro l
  induction l with
  | nil =>
    intro i r h
    simp [findTaskRowAux] at h
  | cons hd tl ih =>
    intro i r h
    rw [findTaskRowAux] at h
    cases hc : hd.get? 17 with
    | none =>
      rw [hc] at h
      have := ih (i + 1) r h
      simp only [List.length_cons]
      omega
    | some cell =>
      rw [hc] at h
      dsimp only at h
      by_cases h1 : cell = ""
      · rw [if_pos h1] at h
        have := ih (i + 1) r h
        simp only [List.length_cons]
        omega
      · rw [if_neg h1] at h
        by_cases h2 : cell = tid
        · rw [if_pos h2] at h
          have : i + 1 = r := Option.some.inj h
          simp only [List.length_cons]
          omega
        · rw [if_neg h2] at h
          have := ih (i + 1) r h
          simp only [List.length_cons]
          omega

lemma findTaskRow_bound (rows : List (List String)) (tid : String) (r : Nat)
    (h : findTaskRow rows tid = some r) : 2 ≤ r ∧ r ≤ rows.length := by
  unfold findTaskRow at h
  have hb := findTaskRowAux_bound tid (rows.drop 1) 1 r h
  cases rows with
  | nil => simp [findTaskRowAux] at h
  | cons hd tl =>
    simp only [List.drop_succ_cons, List.drop_zero, List.length_cons] at hb ⊢
    omega

/-- C4 counterexample: a `removed` event for task `t1`, whose row exists in
`demoSheet`, physically removes the storage slot — the sheet shrinks from 3
rows to 2 and the result differs from the spec's logical (blank-in-place)
delete, refuting "blanking it in place rather than physically removing the
storage slot". -/
theorem c4_counterexample :
    (handleRemovedEvent demoSheet "t1").1 = [demoHeaderRow, taskRowWithId "t2"]
    ∧ demoSheet.length = 3
    ∧ (handleRemovedEvent demoSheet "t1").1.length = 2
    ∧ (handleRemovedEvent demoSheet "t1").1 ≠ logicalDeleteSpec demoSheet 2 := by
  decide

/-- C4 (amended): a `removed`/`deleted` event for a task id with an existing
data row physically deletes exactly that row (a `deleteDimension` removal of
its slot, keeping the rows before it and shifting the rows after it up by
one), in a single write; a `removed` event with no matching row performs zero
spreadsheet writes. -/
theorem c4_removed_event_amended (rows : List (List String)) (tid : String) :
    (findTaskRow rows tid = none → handleRemovedEvent rows tid = (rows, []))
    ∧ (∀ r, findTaskRow rows tid = some r →
        handleRemovedEvent rows tid
          = (rows.take (r - 1) ++ rows.drop r, [SheetWrite.deleteRow r])
        ∧ (handleRemovedEvent rows tid).1.length + 1 = rows.length) := by
  constructor
  · intro h
    simp [handleRemovedEvent, h]
  · intro r h
    have hb := findTaskRow_bound rows tid r h
    have hr : r - 1 < rows.length := by omega
    have he : rows.eraseIdx (r - 1) = rows.take (r - 1) ++ rows.drop ((r - 1) + 1) :=
      List.eraseIdx_eq_take_drop_succ _ _
    have hd : (r - 1) + 1 = r := by omega
    rw [hd] at he
    constructor
    · simp [handleRemovedEvent, h, deleteSpreadsheetRow, he]
    · simp only [handleRemovedEvent, h, deleteSpreadsheetRow]
      exact List.length_eraseIdx_add_one hr

/-- C4 witness: the amended delete rule evaluated at concrete sheets, in both
the row-present and row-absent cases. -/
theorem c4_witness :
    handleRemovedEvent demoSheet "t1"
      = (demoSheet.take 1 ++ demoSheet.drop 2, [SheetWrite.deleteRow 2])
    ∧ handleRemovedEvent demoSheet "t9" = (demoSheet, []) := by
  constructor
  · exact ((c4_removed_event_amended demoSheet "t1").2 2 (by decide)).1
  · exact (c4_removed_event_amended demoSheet "t9").1 (by decide)

lemma upsertRows_cons (r : List String) (rs : List (List String)) (id s : String) :
    upsertRows (r :: rs) id s =
      if rowMatches id r then [id, s] :: rs else r :: upsertRows rs id s := by
  by_cases hr : rowMatches id r
  · simp [upsertRows, findIndex, hr]
  · cases hf : findIndex (rowMatches id) rs with
    | none => simp [upsertRows, findIndex, hr, hf]
    | some i => simp [upsertRows, findIndex, hr, hf]

lemma upsertRows_filter (rows : List (List String)) (id s : String)
    (h : (rows.filter (rowMatches id)).length ≤ 1) :
    (upsertRows rows id s).filter (rowMatches id) = [[id, s]] := by
  induction rows with
  | nil =>
    simp [upsertRows, findIndex, rowMatches]
  | cons r rs ih =>
    rw [upsertRows_cons]
    by_cases hr : rowMatches id r
    · rw [if_pos hr]
      rw [List.filter_cons_of_pos hr] at h
      simp only [List.length_cons] at h
      have hnil : rs.filter (rowMatches id) = [] :=
        List.length_eq_zero.mp (by omega)
      rw [List.filter_cons_of_pos (by simp [rowMatches]), hnil]
    · rw [if_neg hr]
      rw [List.filter_cons_of_neg hr] at h
      rw [List.filter_cons_of_neg hr]
      exact ih h

lemma upsertRows_any (rows : List (List String)) (id s : String) :
    (upsertRows rows id s).any (rowMatches id) = true := by
  induction rows with
  | nil => simp [upsertRows, findIndex, rowMatches]
  | cons r rs ih =>
    rw [upsertRows_cons]
    by_cases hr : rowMatches id r
    · rw [if_pos hr]
      simp [rowMatches]
    · rw [if_neg hr]
      simp [ih]

lemma findIndex_isSome_iff_any (p : List String → Bool) (l : List (List String)) :
    (findIndex p l).isSome = l.any p := by
  induction l with
  | nil => rfl
  | cons r rs ih =>
    by_cases hr : p r
    · simp [findIndex, hr]
    · simp [findIndex, hr, ih]

lemma upsertRows_length_of_any (rows : List (List String)) (id s : String)
    (h : rows.any (rowMatches id) = true) :
    (upsertRows rows id s).length = rows.length := by
  unfold upsertRows
  cases hf : findIndex (rowMatches id) rows with
  | some i => simp
  | none =>
    rw [← findIndex_isSome_iff_any, hf] at h
    simp at h

lemma upsertRows_of_not_any (rows : List (List String)) (id s : String)
    (h : rows.any (rowMatches id) = false) :
    upsertRows rows id s = rows ++ [[id, s]] := by
  unfold upsertRows
  cases hf : findIndex (rowMatches id) rows with
  | some i =>
    rw [← findIndex_isSome_iff_any, hf] at h
    simp at h
  | none => rfl

lemma storeWebhookSecret_noFault (id s : String) (rows : List (List String))
    (tr : List ApiCall) :
    ∃ w : ApiCall,
      storeWebhookSecret id s ⟨true, rows, [], tr⟩
        = (Except.ok (), ⟨true, upsertRows rows id s, [],
            tr ++ [ApiCall.getMeta, ApiCall.readRows, w]⟩) := by
  have hens : ensureWithRetry ⟨true, rows, [], tr⟩
      = (Except.ok (), ⟨true, rows, [], tr ++ [ApiCall.getMeta]⟩) := by
    simp [ensureWithRetry, ensureWebhookSecretsSheet, callOutcome, takeFault]
  have hread : readAllRowsWithRetry ⟨true, rows, [], tr ++ [ApiCall.getMeta]⟩
      = (Except.ok (secretsHeader :: rows),
          ⟨true, rows, [], tr ++ [ApiCall.getMeta, ApiCall.readRows]⟩) := by
    simp [readAllRowsWithRetry, readAllRows, callOutcome, takeFault]
  unfold storeWebhookSecret
  rw [hens]
  dsimp only
  rw [hread]
  dsimp only
  cases hf : findIndex (rowMatches id) ((secretsHeader :: rows).drop 1) with
  | some i =>
    refine ⟨ApiCall.updateRow (i + 2), ?_⟩
    simp only [List.drop_succ_cons, List.drop_zero] at hf
    simp [hf, callOutcome, takeFault, upsertRows]
  | none =>
    refine ⟨ApiCall.appendRow, ?_⟩
    simp only [List.drop_succ_cons, List.drop_zero] at hf
    simp [hf, callOutcome, takeFault, upsertRows]

/-- C3: starting from a `webhook_secrets` sheet with at most one data row for
a webhook id, two fault-free `storeWebhookSecret` upserts for that id leave
exactly one stored record for it, holding the secret written last; an
existing row is overwritten in place (the row count is unchanged) and a new
row is appended only when no row for the id exists, so repeated upserts never
create duplicate rows. -/
theorem c3_upsert_idempotent (rows : List (List String)) (id a b : String)
    (h : (rows.filter (rowMatches id)).length ≤ 1) :
    ∃ st1 st2 : SheetsState,
      storeWebhookSecret id a ⟨true, rows, [], []⟩ = (Except.ok (), st1)
      ∧ storeWebhookSecret id b st1 = (Except.ok (), st2)
      ∧ st1.rows = upsertRows rows id a
      ∧ st2.rows.filter (rowMatches id) = [[id, b]]
      ∧ st2.rows.length = st1.rows.length
      ∧ (rows.any (rowMatches id) = true → st1.rows.length = rows.length)
      ∧ (rows.any (rowMatches id) = false → st1.rows = rows ++ [[id, a]]) := by
  obtain ⟨w1, h1⟩ := storeWebhookSecret_noFault id a rows []
  obtain ⟨w2, h2⟩ := storeWebhookSecret_noFault id b (upsertRows rows id a)
    ([] ++ [ApiCall.getMeta, ApiCall.readRows, w1])
  have hfa : ((upsertRows rows id a).filter (rowMatches id)).length ≤ 1 := by
    rw [upsertRows_filter rows id a h]
    simp
  refine ⟨_, _, h1, h2, rfl, ?_, ?_, ?_, ?_⟩
  · exact upsertRows_filter (upsertRows rows id a) id b hfa
  · exact upsertRows_length_of_any (upsertRows rows id a) id b (upsertRows_any rows id a)
  · intro ha
    exact upsertRows_length_of_any rows id a ha
  · intro ha
    exact upsertRows_of_not_any rows id a ha

/-- C3 witness: the idempotent upsert evaluated on a concrete one-row store. -/
theorem c3_witness :
    ([["w1", "s0"]].filter (rowMatches "w1")).length ≤ 1
    ∧ ∃ st1 st2 : SheetsState,
      storeWebhookSecret "w1" "sA" ⟨true, [["w1", "s0"]], [], []⟩ = (Except.ok (), st1)
      ∧ storeWebhookSecret "w1" "sB" st1 = (Except.ok (), st2)
      ∧ st1.rows = upsertRows [["w1", "s0"]] "w1" "sA"
      ∧ st2.rows.filter (rowMatches "w1") = [["w1", "sB"]]
      ∧ st2.rows.length = st1.rows.length
      ∧ ([["w1", "s0"]].any (rowMatches "w1") = true →
          st1.rows.length = [["w1", "s0"]].length)
      ∧ ([["w1", "s0"]].any (rowMatches "w1") = false →
          st1.rows = [["w1", "s0"]] ++ [["w1", "sA"]]) :=
  ⟨by decide, c3_upsert_idempotent [["w1", "s0"]] "w1" "sA" "sB" (by decide)⟩

/-- C8 counterexample: with the `webhook_secrets` sheet present and a rate
limit injected on the third backing-store call — the final write of the
upsert — `storeWebhookSecret` surfaces the 429 immediately: the trace shows a
single write attempt and no 5-second backoff wait, refuting "retries exactly
once after a fixed 5-second backoff before surfacing the error". -/
theorem c8_counterexample :
    storeWebhookSecret "w1" "s1" ⟨true, [], [Fault.ok, Fault.ok, Fault.rate], []⟩
      = (Except.error ⟨429⟩,
          ⟨true, [], [], [ApiCall.getMeta, ApiCall.readRows, ApiCall.appendRow]⟩)
    ∧ ApiCall.wait 5000 ∉ [ApiCall.getMeta, ApiCall.readRows, ApiCall.appendRow] := by
  decide

/-- C8 (amended): during `storeWebhookSecret`, a 429 from the backing store
on the schema-ensure step or on the row-read step is retried exactly once
after a 5-second backoff and the upsert then proceeds; a 429 on the final
write (update or append) surfaces immediately without retry or backoff; and
persistent failures (a non-429 error, or a 429 followed by another failure of
the retried step) are raised to the caller rather than being swallowed. -/
theorem c8_retry_amended (rows : List (List String)) (id s : String) :
    ((storeWebhookSecret id s ⟨true, rows, [Fault.rate], []⟩).1 = Except.ok ()
      ∧ (storeWebhookSecret id s ⟨true, rows, [Fault.rate], []⟩).2.trace.take 4
          = [ApiCall.getMeta, ApiCall.wait 5000, ApiCall.getMeta, ApiCall.readRows])
    ∧ ((storeWebhookSecret id s ⟨true, rows, [Fault.ok, Fault.rate], []⟩).1 = Except.ok ()
      ∧ (storeWebhookSecret id s ⟨true, rows, [Fault.ok, Fault.rate], []⟩).2.trace.take 4
          = [ApiCall.getMeta, ApiCall.readRows, ApiCall.wait 5000, ApiCall.readRows])
    ∧ ((storeWebhookSecret id s ⟨true, rows, [Fault.ok, Fault.ok, Fault.rate], []⟩).1
          = Except.error ⟨429⟩
      ∧ (storeWebhookSecret id s
          ⟨true, rows, [Fault.ok, Fault.ok, Fault.rate], []⟩).2.trace.length = 3
      ∧ ApiCall.wait 5000 ∉ (storeWebhookSecret id s
          ⟨true, rows, [Fault.ok, Fault.ok, Fault.rate], []⟩).2.trace)
    ∧ (storeWebhookSecret id s ⟨true, rows, [Fault.rate, Fault.rate], []⟩).1
        = Except.error ⟨429⟩
    ∧ (storeWebhookSecret id s ⟨true, rows, [Fault.fail], []⟩).1 = Except.error ⟨500⟩ := by
  refine ⟨⟨?_, ?_⟩, ⟨?_, ?_⟩, ⟨?_, ?_, ?_⟩, ?_, ?_⟩ <;>
  · cases hf : findIndex (rowMatches id) rows <;>
      simp [storeWebhookSecret, ensureWithRetry, ensureWebhookSecretsSheet,
        readAllRowsWithRetry, readAllRows, callOutcome, takeFault, recordWait, hf]

lemma mem_extractSecrets_foldl (rows : List (List String)) :
    ∀ (acc : List String) (s : String),
      s ∈ rows.foldl
        (fun acc r =>
          match r.get? 1 with
          | some t => if t = "" then acc else if acc.contains t then acc else acc ++ [t]
          | none => acc) acc
      ↔ s ∈ acc ∨ (s ≠ "" ∧ ∃ r ∈ rows, r.get? 1 = some s) := by
  induction rows with
  | nil =>
    intro acc s
    simp
  | cons r rs ih =>
    intro acc s
    rw [List.foldl_cons]
    rw [ih]
    cases hc : r.get? 1 with
    | none =>
      simp only [hc, List.mem_cons]
      constructor
      · rintro (h | ⟨hs, r', hr', hget⟩)
        · exact Or.inl h
        · exact Or.inr ⟨hs, r', Or.inr hr', hget⟩
      · rintro (h | ⟨hs, r', (rfl | hr'), hget⟩)
        · exact Or.inl h
        · rw [hc] at hget
          exact absurd hget (by simp)
        · exact Or.inr ⟨hs, r', hr', hget⟩
    | some t =>
      by_cases ht : t = ""
      · simp only [hc, if_pos ht, List.mem_cons]
        constructor
        · rintro (h | ⟨hs, r', hr', hget⟩)
          · exact Or.inl h
          · exact Or.inr ⟨hs, r', Or.inr hr', hget⟩
        · rintro (h | ⟨hs, r', (rfl | hr'), hget⟩)
          · exact Or.inl h
          · rw [hc] at hget
            have hts : t = s := by simpa using hget
            exact absurd (hts ▸ ht) hs
          · exact Or.inr ⟨hs, r', hr', hget⟩
      · by_cases hmem : acc.contains t
        · have htacc : t ∈ acc := by simpa using hmem
          simp only [hc, if_neg ht, if_pos hmem, List.mem_cons]
          constructor
          · rintro (h | ⟨hs, r', hr', hget⟩)
            · exact Or.inl h
            · exact Or.inr ⟨hs, r', Or.inr hr', hget⟩
          · rintro (h | ⟨hs, r', (rfl | hr'), hget⟩)
            · exact Or.inl h
            · rw [hc] at hget
              obtain rfl : t = s := by simpa using hget
              exact Or.inl htacc
            · exact Or.inr ⟨hs, r', hr', hget⟩
        · simp only [hc, if_neg ht, if_neg hmem, List.mem_cons, List.mem_append]
          constructor
          · rintro ((h | hst) | ⟨hs, r', hr', hget⟩)
            · exact Or.inl h
            · obtain rfl : s = t := by simpa using hst
              exact Or.inr ⟨ht, r, Or.inl rfl, hc⟩
            · exact Or.inr ⟨hs, r', Or.inr hr', hget⟩
          · rintro (h | ⟨hs, r', (rfl | hr'), hget⟩)
            · exact Or.inl (Or.inl h)
            · rw [hc] at hget
              obtain rfl : t = s := by simpa using hget
              exact Or.inl (Or.inr (by simp))
            · exact Or.inr ⟨hs, r', hr', hget⟩

/-- C10: `getWebhookSecrets` never raises — on a backing-store failure
(non-retriable error, or a rate limit whose single retry also fails) it
returns the empty secret collection, so a signed delivery arriving while the
store is unreachable fails verification and is rejected with 401 rather than
surfacing an error; on success it returns exactly the distinct non-empty
secret values of the stored rows, discarding webhook ids and blank secrets. -/
theorem c10_secret_listing_fail_closed :
    (∀ (rows : List (List String)) (s : String),
      s ∈ extractSecrets rows ↔ (s ≠ "" ∧ ∃ r ∈ rows, r.get? 1 = some s))
    ∧ (∀ (rows : List (List String)) (tr : List ApiCall),
      getWebhookSecrets ⟨true, rows, [], tr⟩
        = (extractSecrets rows,
            ⟨true, rows, [], tr ++ [ApiCall.getMeta, ApiCall.readRows]⟩))
    ∧ (∀ (rows : List (List String)) (tr : List ApiCall),
      (getWebhookSecrets ⟨true, rows, [Fault.fail], tr⟩).1 = [])
    ∧ (∀ (rows : List (List String)) (tr : List ApiCall),
      (getWebhookSecrets ⟨true, rows, [Fault.rate, Fault.rate], tr⟩).1 = [])
    ∧ (∀ raw signature : String, (part006EventResponse [] raw signature).status = 401) := by
  refine ⟨?_, ?_, ?_, ?_, ?_⟩
  · intro rows s
    have h := mem_extractSecrets_foldl rows [] s
    simpa [extractSecrets] using h
  · intro rows tr
    simp [getWebhookSecrets, getWebhookSecretsInner, ensureWithRetry,
      ensureWebhookSecretsSheet, readDataRowsWithRetry, readDataRows,
      callOutcome, takeFault, recordWait]
  · intro rows tr
    simp [getWebhookSecrets, getWebhookSecretsInner, ensureWithRetry,
      ensureWebhookSecretsSheet, readDataRowsWithRetry, readDataRows,
      callOutcome, takeFault, recordWait]
  · intro rows tr
    simp [getWebhookSecrets, getWebhookSecretsInner, ensureWithRetry,
      ensureWebhookSecretsSheet, readDataRowsWithRetry, readDataRows,
      callOutcome, takeFault, recordWait]
  · intro raw signature
    simp [part006EventResponse, verifyAgainstSecrets]

/-- C2 counterexample: with stored secret `k`, the raw request body `"{ }"`
(a space inside the braces) is accepted with status 200 when the signature
header equals the HMAC of `k` over `"{}"` — the re-serialization of the
parsed body — even though no stored secret's HMAC over the exact raw body
bytes equals that header, refuting the claim's "exact raw request body bytes"
wording at this input. -/
theorem c2_counterexample :
    (part006EventResponse ["k"] "\x7b \x7d" (hmacSha256Hex "k" "\x7b\x7d")).status = 200
    ∧ ¬ ∃ s ∈ (["k"] : List String),
        hmacSha256Hex s "\x7b \x7d" = hmacSha256Hex "k" "\x7b\x7d" := by
  decide

/-- C2 (amended): the event handler computes, for each stored secret, an
HMAC-SHA256 (hex-encoded) keyed by the secret over `JSON.stringify` of the
parsed request body — the re-serialized body, which coincides with the raw
bytes only when the raw body is already in canonical stringified form — and
accepts with 200 exactly when some stored secret's digest equals the
signature header, rejecting with 401 otherwise, in particular whenever the
stored secret set is empty. -/
theorem c2_signature_verification_amended (secrets : List String)
    (raw signature : String) :
    ((part006EventResponse secrets raw signature).status = 200
      ↔ ∃ s ∈ secrets, hmacSha256Hex s (stringify (parseRequestBody raw)) = signature)
    ∧ ((part006EventResponse secrets raw signature).status = 200
      ∨ (part006EventResponse secrets raw signature).status = 401)
    ∧ (part006EventResponse [] raw signature).status = 401 := by
  have hv : verifyAgainstSecrets secrets (stringify (parseRequestBody raw)) signature = true
      ↔ ∃ s ∈ secrets,
          hmacSha256Hex s (stringify (parseRequestBody raw)) = signature := by
    simp [verifyAgainstSecrets, List.any_eq_true]
  refine ⟨?_, ?_, ?_⟩
  · cases h : verifyAgainstSecrets secrets (stringify (parseRequestBody raw)) signature
    · rw [← hv, h]
      simp [part006EventResponse, h]
    · simp [part006EventResponse, h]
      exact hv.mp h
  · cases h : verifyAgainstSecrets secrets (stringify (parseRequestBody raw)) signature <;>
      simp [part006EventResponse, h]
  · simp [part006EventResponse, verifyAgainstSecrets]
